import Mathlib

/-! Shallow embedding of `src/java.base/linux/native/libsystemconf/systemconf.c`
from jdk11u: the libsystemconf native library answering whether the operating
system's cryptographic subsystem runs in FIPS mode.  We model the build
variant without SYSCONF_NSS (the one that contains `loadNSS` and `closeNSS`,
where the NSS library is opened with dlopen and the symbol
`SECMOD_GetSystemFIPSEnabled` is resolved with dlsym).

Modelling choices:
* `SysconfState` holds the file-scope C globals (`getSystemFIPSEnabled`,
  `nss_handle`, `debugObj`) plus a ghost counter of dlclose invocations.
  `debugObj : Bool` records whether the global holds a live debug object
  (`DeleteGlobalRef` in `DEF_JNI_OnUnload` is modelled as clearing it).
* Outcomes carry the returned jboolean, the pending `IOException` message
  when `throwIOException` ran, the diagnostic lines emitted through the
  Debug sink, and ghost counters of `fopen`/`fclose` successes.
* Outside inputs that the C code observes (dlopen/dlsym/dlclose results with
  their `dlerror` strings, JNI reflective-lookup successes, the value the
  native entry point returns, the content of `/proc/sys/crypto/fips_enabled`)
  are supplied as explicit environment records.  The pseudo-file is
  `none` when `fopen` fails, and otherwise its list of characters; `fgetc`
  on the empty list is EOF.
-/

namespace Systemconf

/-- `MSG_MAX_SIZE` from systemconf.c. -/
def MSG_MAX_SIZE : Int := 256

/-- `FIPS_ENABLED_PATH` from systemconf.c. -/
def FIPS_ENABLED_PATH : String := "/proc/sys/crypto/fips_enabled"

/-- The file-scope C globals of systemconf.c: pointer
`getSystemFIPSEnabled` (entry point resolved by dlsym, `none` = NULL),
`nss_handle` (handle returned by dlopen, `none` = NULL), `debugObj`
(whether a debug object is held), plus a ghost count of dlclose calls
performed so far. -/
structure SysconfState where
  getSystemFIPSEnabled : Option Unit
  nss_handle : Option Unit
  debugObj : Bool
  dlcloseCount : Nat
deriving Repr, DecidableEq

/-- Static initialisation of the globals: all pointers NULL. -/
def initialState : SysconfState :=
  { getSystemFIPSEnabled := none, nss_handle := none, debugObj := false,
    dlcloseCount := 0 }

/-- `dbgPrint`: forwards `msg` to the Debug sink iff `debugObj` is non-NULL;
returns the list of lines emitted. -/
def dbgPrint (debugObj : Bool) (msg : String) : List String :=
  if debugObj then [msg] else []

/-- `handle_msg`: diagnoses `msg` when snprintf reported a renderable size
(`0 < msg_bytes < MSG_MAX_SIZE`), otherwise a fixed notice. -/
def handle_msg (debugObj : Bool) (msg : String) (msg_bytes : Int) : List String :=
  if 0 < msg_bytes ∧ msg_bytes < MSG_MAX_SIZE then dbgPrint debugObj msg
  else dbgPrint debugObj "systemconf: cannot render message"

/-- `throwIOException`: records the message of the pending `java.io.IOException`. -/
def throwIOException (msg : String) : Option String := some msg

/-- printf `%x` rendering of a C int: hexadecimal of its unsigned 32-bit value. -/
def hex32 (i : Int) : String :=
  String.mk (Nat.toDigits 16 (i % (2 : Int) ^ 32).toNat)

/-- Outside inputs observed by one call of
`Java_java_security_SystemConfigurator_getSystemFIPSEnabled`: the value the
native `SECMOD_GetSystemFIPSEnabled` call would return, and the content of
the pseudo-file (`none` when `fopen` fails). -/
structure QueryEnv where
  nativeRet : Int
  file : Option (List Char)
deriving Repr, DecidableEq

/-- Everything one query call produces: the jboolean result, the pending
`IOException` message if one was thrown, the diagnostic lines emitted, which
branch ran (`usedNative`), and ghost counts of successful `fopen` and of
`fclose` calls. -/
structure QueryOutcome where
  ret : Bool
  err : Option String
  log : List String
  usedNative : Bool
  opens : Nat
  closes : Nat
deriving Repr, DecidableEq

/-- `Java_java_security_SystemConfigurator_getSystemFIPSEnabled` from
systemconf.c, lines 191-224. -/
def Java_java_security_SystemConfigurator_getSystemFIPSEnabled
    (s : SysconfState) (q : QueryEnv) : QueryOutcome :=
  match s.getSystemFIPSEnabled with
  | some _ =>
    let log0 := dbgPrint s.debugObj
      "getSystemFIPSEnabled: calling SECMOD_GetSystemFIPSEnabled"
    let fips_enabled := q.nativeRet
    let msg := "getSystemFIPSEnabled: SECMOD_GetSystemFIPSEnabled returned 0x"
      ++ hex32 fips_enabled
    { ret := fips_enabled == 1
      err := none
      log := log0 ++ handle_msg s.debugObj msg msg.length
      usedNative := true
      opens := 0
      closes := 0 }
  | none =>
    let log0 := dbgPrint s.debugObj
      ("getSystemFIPSEnabled: reading " ++ FIPS_ENABLED_PATH)
    match q.file with
    | none =>
      { ret := false
        err := throwIOException ("Cannot open " ++ FIPS_ENABLED_PATH)
        log := log0
        usedNative := false
        opens := 0
        closes := 0 }
    | some [] =>
      { ret := false
        err := throwIOException ("Cannot read " ++ FIPS_ENABLED_PATH)
        log := log0
        usedNative := false
        opens := 1
        closes := 1 }
    | some (c :: _) =>
      let msg := "getSystemFIPSEnabled: read character is '"
        ++ String.singleton c ++ "'"
      { ret := c == '1'
        err := none
        log := log0 ++ handle_msg s.debugObj msg msg.length
        usedNative := false
        opens := 1
        closes := 1 }

/-- Outside inputs observed by `DEF_JNI_OnLoad`: whether each JNI reflective
lookup succeeds, whether the static `sdebug` field holds a debug object,
whether dlopen succeeds and, when it does, the `dlerror` result after dlsym
(`none` = symbol resolved), the `dlerror` string after a failed dlopen, and
the value `GetVersion` returns. -/
structure LoadEnv where
  getEnvOk : Bool
  sysConfClsOk : Bool
  sdebugFldOk : Bool
  sdebugPresent : Bool
  debugClsOk : Bool
  printlnOk : Bool
  dlopenOk : Bool
  dlopenErrmsg : String
  dlsymErr : Option String
  version : Int
deriving Repr, DecidableEq

/-- Result of `loadNSS`: the jboolean it returns, the updated globals, and
the diagnostics emitted. -/
structure LoadNSSResult where
  ok : Bool
  state : SysconfState
  log : List String
deriving Repr, DecidableEq

/-- `loadNSS` from systemconf.c, lines 79-102: dlopen nss3; on failure
diagnose and return JNI_FALSE; otherwise store the dlsym result in
`getSystemFIPSEnabled` (NULL when dlsym failed), and return JNI_FALSE with a
diagnostic when `dlerror` reports a dlsym failure, JNI_TRUE otherwise. -/
def loadNSS (s : SysconfState) (e : LoadEnv) : LoadNSSResult :=
  if e.dlopenOk then
    let s1 : SysconfState :=
      { s with
        nss_handle := some ()
        getSystemFIPSEnabled :=
          match e.dlsymErr with
          | none => some ()
          | some _ => none }
    match e.dlsymErr with
    | some errmsg =>
      let msg := "loadNSS: dlsym: " ++ errmsg ++ "\n"
      { ok := false, state := s1, log := handle_msg s.debugObj msg msg.length }
    | none => { ok := true, state := s1, log := [] }
  else
    let msg := "loadNSS: dlopen: " ++ e.dlopenErrmsg ++ "\n"
    { ok := false, state := { s with nss_handle := none },
      log := handle_msg s.debugObj msg msg.length }

/-- The jint returned by `DEF_JNI_OnLoad`: the version on success,
`JNI_EVERSION` when `GetEnv` fails, `JNI_ERR` when a reflective lookup
fails. -/
inductive LoadResult where
  | ok (version : Int)
  | eversion
  | err
deriving Repr, DecidableEq

/-- Result of `DEF_JNI_OnLoad`: updated globals, returned jint, diagnostics. -/
structure LoadOutcome where
  state : SysconfState
  result : LoadResult
  log : List String
deriving Repr, DecidableEq

/-- `DEF_JNI_OnLoad` from systemconf.c, lines 124-170: resolve the JNI
environment and the `SystemConfigurator.sdebug` debug object (failures of the
reflective lookups abort with an error code), then attempt `loadNSS`; a
failed `loadNSS` is only diagnosed, and the function returns the JNI
version.  (On the JNI_ERR paths the VM rejects the library, so the global
writes already performed there are irrelevant and the incoming state is
returned unchanged.) -/
def DEF_JNI_OnLoad (s : SysconfState) (e : LoadEnv) : LoadOutcome :=
  if ¬ e.getEnvOk then { state := s, result := LoadResult.eversion, log := [] }
  else if ¬ e.sysConfClsOk then { state := s, result := LoadResult.err, log := [] }
  else if ¬ e.sdebugFldOk then { state := s, result := LoadResult.err, log := [] }
  else if e.sdebugPresent ∧ ¬ (e.debugClsOk ∧ e.printlnOk) then
    { state := s, result := LoadResult.err, log := [] }
  else
    let s1 := { s with debugObj := e.sdebugPresent }
    let r := loadNSS s1 e
    let extra :=
      if r.ok then []
      else dbgPrint r.state.debugObj "libsystemconf: Failed to load NSS library."
    { state := r.state, result := LoadResult.ok e.version, log := r.log ++ extra }

/-- Outside inputs observed by `DEF_JNI_OnUnload`: whether `GetEnv`
succeeds, and the dlclose return value with its `dlerror` string. -/
structure UnloadEnv where
  getEnvOk : Bool
  dlcloseRet : Int
  dlcloseErrmsg : String
deriving Repr, DecidableEq

/-- `closeNSS` from systemconf.c, lines 104-116: unconditionally call
`dlclose(nss_handle)` (counted by the ghost field), diagnosing a non-zero
return; the handle variable itself is not cleared. -/
def closeNSS (s : SysconfState) (u : UnloadEnv) : SysconfState × List String :=
  let s1 := { s with dlcloseCount := s.dlcloseCount + 1 }
  if u.dlcloseRet ≠ 0 then
    let msg := "closeNSS: dlclose: " ++ u.dlcloseErrmsg ++ "\n"
    (s1, handle_msg s.debugObj msg msg.length)
  else (s1, [])

/-- `DEF_JNI_OnUnload` from systemconf.c, lines 176-189: only when
`debugObj` is non-NULL, resolve the environment (silently returning if that
fails), call `closeNSS`, and delete the global debug reference. -/
def DEF_JNI_OnUnload (s : SysconfState) (u : UnloadEnv) :
    SysconfState × List String :=
  if s.debugObj then
    if ¬ u.getEnvOk then (s, [])
    else
      let r := closeNSS s u
      ({ r.1 with debugObj := false }, r.2)
  else (s, [])

/-- One externally triggered operation on the library. -/
inductive Op where
  | load (e : LoadEnv)
  | query (q : QueryEnv)
  | unload (u : UnloadEnv)
deriving Repr

/-- Whether an operation is the initialisation. -/
def Op.isLoad : Op → Bool
  | Op.load _ => true
  | _ => false

/-- What an operation makes observable. -/
inductive Obs where
  | loaded (r : LoadResult) (log : List String)
  | queried (o : QueryOutcome)
  | unloaded (log : List String)
deriving Repr

/-- Small-step semantics over the globals. -/
def step (s : SysconfState) : Op → SysconfState × Obs
  | Op.load e =>
    let r := DEF_JNI_OnLoad s e
    (r.state, Obs.loaded r.result r.log)
  | Op.query q =>
    (s, Obs.queried (Java_java_security_SystemConfigurator_getSystemFIPSEnabled s q))
  | Op.unload u =>
    let r := DEF_JNI_OnUnload s u
    (r.1, Obs.unloaded r.2)

/-- Run a sequence of operations, collecting the observations. -/
def run (s : SysconfState) : List Op → SysconfState × List Obs
  | [] => (s, [])
  | op :: ops =>
    let r1 := step s op
    let r2 := run r1.1 ops
    (r2.1, r1.2 :: r2.2)

/-- The spec's description of when the active source indicates enabled:
native entry point present and returning `1`, or, on the fallback path,
first character of the pseudo-file equal to `'1'`. -/
def sourceIndicatesEnabled (s : SysconfState) (q : QueryEnv) : Prop :=
  match s.getSystemFIPSEnabled with
  | some _ => q.nativeRet = 1
  | none =>
    match q.file with
    | some (c :: _) => c = '1'
    | _ => False

/-- Claim C1: a query returns `true` iff the active source indicates
enabled: with the native entry point present, its return value equals `1`;
otherwise the first character read from the pseudo-file equals `'1'`.
Every other observed value yields `false`. -/
theorem query_true_iff_source_enabled (s : SysconfState) (q : QueryEnv) :
    (Java_java_security_SystemConfigurator_getSystemFIPSEnabled s q).ret = true
      ↔ sourceIndicatesEnabled s q := by
  obtain ⟨entry, handle, dbg, cnt⟩ := s
  obtain ⟨nativeRet, file⟩ := q
  cases entry with
  | some u =>
    simp [Java_java_security_SystemConfigurator_getSystemFIPSEnabled,
      sourceIndicatesEnabled]
  | none =>
    cases file with
    | none =>
      simp [Java_java_security_SystemConfigurator_getSystemFIPSEnabled,
        sourceIndicatesEnabled]
    | some content =>
      cases content with
      | nil =>
        simp [Java_java_security_SystemConfigurator_getSystemFIPSEnabled,
          sourceIndicatesEnabled]
      | cons c rest =>
        simp [Java_java_security_SystemConfigurator_getSystemFIPSEnabled,
          sourceIndicatesEnabled]

/-- Claim C2: on the fallback path, a failed open throws
"Cannot open /proc/sys/crypto/fips_enabled", an immediate EOF on the first
read throws "Cannot read /proc/sys/crypto/fips_enabled", and a successfully
read character other than `'1'` is no error and yields `false`. -/
theorem fallback_error_behavior (s : SysconfState) (q : QueryEnv)
    (h : s.getSystemFIPSEnabled = none) :
    (q.file = none →
      (Java_java_security_SystemConfigurator_getSystemFIPSEnabled s q).err
        = some ("Cannot open " ++ FIPS_ENABLED_PATH)) ∧
    (q.file = some [] →
      (Java_java_security_SystemConfigurator_getSystemFIPSEnabled s q).err
        = some ("Cannot read " ++ FIPS_ENABLED_PATH)) ∧
    (∀ c rest, q.file = some (c :: rest) →
      (Java_java_security_SystemConfigurator_getSystemFIPSEnabled s q).err
        = none ∧
      (Java_java_security_SystemConfigurator_getSystemFIPSEnabled s q).ret
        = (c == '1')) := by
  obtain ⟨entry, handle, dbg, cnt⟩ := s
  obtain ⟨nativeRet, file⟩ := q
  simp only at h
  subst h
  refine ⟨?_, ?_, ?_⟩
  · intro hf
    simp only at hf
    subst hf
    rfl
  · intro hf
    simp only at hf
    subst hf
    rfl
  · intro c rest hf
    simp only at hf
    subst hf
    exact ⟨rfl, rfl⟩

/-- Witness for C2 at a concrete input: entry point absent, file content
`"0\n"`: no error is thrown and the result is `false`. -/
theorem fallback_error_behavior_witness :
    (Java_java_security_SystemConfigurator_getSystemFIPSEnabled initialState
        { nativeRet := 0, file := some ['0', '\n'] }).err = none ∧
    (Java_java_security_SystemConfigurator_getSystemFIPSEnabled initialState
        { nativeRet := 0, file := some ['0', '\n'] }).ret = ('0' == '1') :=
  (fallback_error_behavior initialState
    { nativeRet := 0, file := some ['0', '\n'] } rfl).2.2 '0' ['\n'] rfl

/-! Helper lemmas shared by the claim theorems. -/

lemma query_native_outcome (s : SysconfState) (q : QueryEnv)
    (h : s.getSystemFIPSEnabled = some ()) :
    (Java_java_security_SystemConfigurator_getSystemFIPSEnabled s q).usedNative
        = true ∧
    (Java_java_security_SystemConfigurator_getSystemFIPSEnabled s q).opens = 0 ∧
    (Java_java_security_SystemConfigurator_getSystemFIPSEnabled s q).err
        = none := by
  obtain ⟨entry, handle, dbg, cnt⟩ := s
  simp only at h
  subst h
  exact ⟨rfl, rfl, rfl⟩

lemma query_fallback_outcome (s : SysconfState) (q : QueryEnv)
    (h : s.getSystemFIPSEnabled = none) :
    (Java_java_security_SystemConfigurator_getSystemFIPSEnabled s q).usedNative
      = false := by
  obtain ⟨entry, handle, dbg, cnt⟩ := s
  obtain ⟨nativeRet, file⟩ := q
  simp only at h
  subst h
  cases file with
  | none => rfl
  | some content =>
    cases content with
    | nil => rfl
    | cons c rest => rfl

lemma run_map_query_snd (s : SysconfState) (qs : List QueryEnv) :
    (run s (qs.map Op.query)).2
      = qs.map (fun q => Obs.queried
          (Java_java_security_SystemConfigurator_getSystemFIPSEnabled s q)) := by
  induction qs with
  | nil => rfl
  | cons q qs ih => simp [run, step, ih]

lemma DEF_JNI_OnLoad_ok (s : SysconfState) (e : LoadEnv)
    (hEnv : e.getEnvOk = true) (hCls : e.sysConfClsOk = true)
    (hFld : e.sdebugFldOk = true)
    (hDbg : e.sdebugPresent = true → e.debugClsOk = true ∧ e.printlnOk = true) :
    (DEF_JNI_OnLoad s e).result = LoadResult.ok e.version ∧
    (DEF_JNI_OnLoad s e).state
      = (loadNSS { s with debugObj := e.sdebugPresent } e).state := by
  by_cases hp : e.sdebugPresent = true
  · obtain ⟨hd, hpr⟩ := hDbg hp
    simp [DEF_JNI_OnLoad, hEnv, hCls, hFld, hp, hd, hpr]
  · rw [Bool.not_eq_true] at hp
    simp [DEF_JNI_OnLoad, hEnv, hCls, hFld, hp]

lemma loadNSS_acq_failed (s : SysconfState) (e : LoadEnv)
    (h : s.getSystemFIPSEnabled = none)
    (hAcq : e.dlopenOk = false ∨ e.dlsymErr ≠ none) :
    (loadNSS s e).state.getSystemFIPSEnabled = none := by
  rcases hAcq with h1 | h2
  · simp [loadNSS, h1, h]
  · rcases hse : e.dlsymErr with _ | msg
    · exact absurd hse h2
    · by_cases ho : e.dlopenOk = true
      · simp [loadNSS, ho, hse]
      · rw [Bool.not_eq_true] at ho
        simp [loadNSS, ho, h]

lemma loadNSS_acq_ok (s : SysconfState) (e : LoadEnv)
    (ho : e.dlopenOk = true) (hs : e.dlsymErr = none) :
    (loadNSS s e).state.getSystemFIPSEnabled = some () := by
  simp [loadNSS, ho, hs]

/-- Claim C3: initialization completes successfully (returns the JNI
version) even when dlopen or dlsym fails, and in that case every subsequent
query runs on the file-based fallback path. -/
theorem onload_tolerates_missing_nss (e : LoadEnv) (qs : List QueryEnv)
    (hEnv : e.getEnvOk = true) (hCls : e.sysConfClsOk = true)
    (hFld : e.sdebugFldOk = true)
    (hDbg : e.sdebugPresent = true → e.debugClsOk = true ∧ e.printlnOk = true)
    (hAcq : e.dlopenOk = false ∨ e.dlsymErr ≠ none) :
    (DEF_JNI_OnLoad initialState e).result = LoadResult.ok e.version ∧
    ∀ ob ∈ (run (DEF_JNI_OnLoad initialState e).state (qs.map Op.query)).2,
      ∃ o, ob = Obs.queried o ∧ o.usedNative = false := by
  obtain ⟨hres, hst⟩ := DEF_JNI_OnLoad_ok initialState e hEnv hCls hFld hDbg
  have hentry : (DEF_JNI_OnLoad initialState e).state.getSystemFIPSEnabled
      = none := by
    rw [hst]
    exact loadNSS_acq_failed _ e rfl hAcq
  refine ⟨hres, ?_⟩
  intro ob hob
  rw [run_map_query_snd] at hob
  rcases List.mem_map.mp hob with ⟨q, hq, rfl⟩
  exact ⟨_, rfl, query_fallback_outcome _ q hentry⟩

/-- Environment for the C3 witness: all reflective lookups succeed, a debug
object is present, dlopen fails. -/
def loadEnvDlopenFails : LoadEnv :=
  { getEnvOk := true, sysConfClsOk := true, sdebugFldOk := true,
    sdebugPresent := true, debugClsOk := true, printlnOk := true,
    dlopenOk := false, dlopenErrmsg := "libnss3.so: cannot open shared object file",
    dlsymErr := none, version := 65538 }

/-- Witness for C3 at a concrete environment where dlopen fails. -/
theorem onload_tolerates_missing_nss_witness :
    (DEF_JNI_OnLoad initialState loadEnvDlopenFails).result
      = LoadResult.ok 65538 :=
  (onload_tolerates_missing_nss loadEnvDlopenFails [] rfl rfl rfl
    (fun _ => ⟨rfl, rfl⟩) (Or.inl rfl)).1

/-- Claim C6: once the native entry point has been resolved at
initialization, every subsequent query uses it exclusively: it never opens
the fallback pseudo-file and never produces an I/O error. -/
theorem native_entry_exclusive (e : LoadEnv) (qs : List QueryEnv)
    (hEnv : e.getEnvOk = true) (hCls : e.sysConfClsOk = true)
    (hFld : e.sdebugFldOk = true)
    (hDbg : e.sdebugPresent = true → e.debugClsOk = true ∧ e.printlnOk = true)
    (hOpen : e.dlopenOk = true) (hSym : e.dlsymErr = none) :
    ∀ ob ∈ (run (DEF_JNI_OnLoad initialState e).state (qs.map Op.query)).2,
      ∃ o, ob = Obs.queried o ∧ o.usedNative = true ∧ o.opens = 0 ∧
        o.err = none := by
  obtain ⟨hres, hst⟩ := DEF_JNI_OnLoad_ok initialState e hEnv hCls hFld hDbg
  have hentry : (DEF_JNI_OnLoad initialState e).state.getSystemFIPSEnabled
      = some () := by
    rw [hst]
    exact loadNSS_acq_ok _ e hOpen hSym
  intro ob hob
  rw [run_map_query_snd] at hob
  rcases List.mem_map.mp hob with ⟨q, hq, rfl⟩
  obtain ⟨h1, h2, h3⟩ := query_native_outcome _ q hentry
  exact ⟨_, rfl, h1, h2, h3⟩

/-- Environment for the C6 witness: all reflective lookups succeed, no debug
object, dlopen and dlsym succeed. -/
def loadEnvNSSOk : LoadEnv :=
  { getEnvOk := true, sysConfClsOk := true, sdebugFldOk := true,
    sdebugPresent := false, debugClsOk := true, printlnOk := true,
    dlopenOk := true, dlopenErrmsg := "", dlsymErr := none, version := 65538 }

/-- Witness for C6 at a concrete environment and a one-query trace. -/
theorem native_entry_exclusive_witness :
    (Java_java_security_SystemConfigurator_getSystemFIPSEnabled
        (DEF_JNI_OnLoad initialState loadEnvNSSOk).state
        { nativeRet := 1, file := none }).usedNative = true ∧
    (Java_java_security_SystemConfigurator_getSystemFIPSEnabled
        (DEF_JNI_OnLoad initialState loadEnvNSSOk).state
        { nativeRet := 1, file := none }).err = none := by
  have h := native_entry_exclusive loadEnvNSSOk
    [{ nativeRet := 1, file := none }] rfl rfl rfl
    (fun hp => ⟨rfl, rfl⟩) rfl rfl
  have hmem : Obs.queried
      (Java_java_security_SystemConfigurator_getSystemFIPSEnabled
        (DEF_JNI_OnLoad initialState loadEnvNSSOk).state
        { nativeRet := 1, file := none })
      ∈ (run (DEF_JNI_OnLoad initialState loadEnvNSSOk).state
          ([{ nativeRet := 1, file := none }].map Op.query)).2 := by
    rw [run_map_query_snd]
    simp
  rcases h _ hmem with ⟨o, ho, h1, h2, h3⟩
  have ho2 := ho.symm
  injection ho2 with ho3
  rw [← ho3]
  exact ⟨h1, h3⟩

/-- Claim C7: the presence or absence of the diagnostic sink never affects
the primary result: for a fixed entry-point state and pseudo-file content,
the returned boolean and the thrown-or-not I/O error are identical with and
without the sink. -/
theorem sink_does_not_affect_result (entry handle : Option Unit) (cnt : Nat)
    (q : QueryEnv) :
    (Java_java_security_SystemConfigurator_getSystemFIPSEnabled
        { getSystemFIPSEnabled := entry, nss_handle := handle,
          debugObj := true, dlcloseCount := cnt } q).ret
      = (Java_java_security_SystemConfigurator_getSystemFIPSEnabled
          { getSystemFIPSEnabled := entry, nss_handle := handle,
            debugObj := false, dlcloseCount := cnt } q).ret ∧
    (Java_java_security_SystemConfigurator_getSystemFIPSEnabled
        { getSystemFIPSEnabled := entry, nss_handle := handle,
          debugObj := true, dlcloseCount := cnt } q).err
      = (Java_java_security_SystemConfigurator_getSystemFIPSEnabled
          { getSystemFIPSEnabled := entry, nss_handle := handle,
            debugObj := false, dlcloseCount := cnt } q).err := by
  obtain ⟨nativeRet, file⟩ := q
  cases entry with
  | some u => exact ⟨rfl, rfl⟩
  | none =>
    cases file with
    | none => exact ⟨rfl, rfl⟩
    | some content =>
      cases content with
      | nil => exact ⟨rfl, rfl⟩
      | cons c rest => exact ⟨rfl, rfl⟩

/-- Claim C8: no operation other than initialization writes the
`getSystemFIPSEnabled` entry-point pointer: every non-load step leaves it
unchanged, so its presence or absence is permanent once loading is done. -/
theorem entry_point_written_only_by_load (s : SysconfState) (op : Op)
    (h : op.isLoad = false) :
    (step s op).1.getSystemFIPSEnabled = s.getSystemFIPSEnabled := by
  cases op with
  | load e => simp [Op.isLoad] at h
  | query q => rfl
  | unload u =>
    show (DEF_JNI_OnUnload s u).1.getSystemFIPSEnabled
      = s.getSystemFIPSEnabled
    unfold DEF_JNI_OnUnload closeNSS
    split_ifs <;> rfl

/-- Witness for C8: a concrete query step leaves the entry-point pointer
unchanged. -/
theorem entry_point_written_only_by_load_witness :
    Op.isLoad (Op.query { nativeRet := 0, file := none }) = false ∧
    (step initialState
        (Op.query { nativeRet := 0, file := none })).1.getSystemFIPSEnabled
      = initialState.getSystemFIPSEnabled :=
  ⟨rfl, entry_point_written_only_by_load initialState
    (Op.query { nativeRet := 0, file := none }) rfl⟩

/-- Claim C9: on the fallback path, whenever `fopen` succeeds the file is
closed on every exit path of the call: exactly one `fclose` per successful
open, both when a character is read and when the first read hits EOF. -/
theorem fallback_always_closes_file (s : SysconfState) (q : QueryEnv)
    (h : s.getSystemFIPSEnabled = none) (content : List Char)
    (hf : q.file = some content) :
    (Java_java_security_SystemConfigurator_getSystemFIPSEnabled s q).opens
        = 1 ∧
    (Java_java_security_SystemConfigurator_getSystemFIPSEnabled s q).closes
        = 1 := by
  obtain ⟨entry, handle, dbg, cnt⟩ := s
  obtain ⟨nativeRet, file⟩ := q
  simp only at h hf
  subst h
  subst hf
  cases content with
  | nil => exact ⟨rfl, rfl⟩
  | cons c rest => exact ⟨rfl, rfl⟩

/-- Witness for C9 at a concrete input: empty pseudo-file (immediate EOF);
the file is still opened once and closed once. -/
theorem fallback_always_closes_file_witness :
    (Java_java_security_SystemConfigurator_getSystemFIPSEnabled initialState
        { nativeRet := 0, file := some [] }).opens = 1 ∧
    (Java_java_security_SystemConfigurator_getSystemFIPSEnabled initialState
        { nativeRet := 0, file := some [] }).closes = 1 :=
  fallback_always_closes_file initialState
    { nativeRet := 0, file := some [] } rfl [] rfl

/-- Claim C10: when the fallback path fails (open failure or immediate
EOF), the call still returns `false` alongside throwing the I/O error, so a
caller that ignores the pending exception observes `false`. -/
theorem fallback_failure_still_returns_false (s : SysconfState) (q : QueryEnv)
    (h : s.getSystemFIPSEnabled = none)
    (hf : q.file = none ∨ q.file = some []) :
    (Java_java_security_SystemConfigurator_getSystemFIPSEnabled s q).ret
        = false ∧
    (Java_java_security_SystemConfigurator_getSystemFIPSEnabled s q).err.isSome
        = true := by
  obtain ⟨entry, handle, dbg, cnt⟩ := s
  obtain ⟨nativeRet, file⟩ := q
  simp only at h hf
  subst h
  rcases hf with hf | hf
  · subst hf
    exact ⟨rfl, rfl⟩
  · subst hf
    exact ⟨rfl, rfl⟩

/-- Witness for C10 at a concrete input: the pseudo-file cannot be opened. -/
theorem fallback_failure_still_returns_false_witness :
    (Java_java_security_SystemConfigurator_getSystemFIPSEnabled initialState
        { nativeRet := 0, file := none }).ret = false ∧
    (Java_java_security_SystemConfigurator_getSystemFIPSEnabled initialState
        { nativeRet := 0, file := none }).err.isSome = true :=
  fallback_failure_still_returns_false initialState
    { nativeRet := 0, file := none } rfl (Or.inl rfl)

/-- Environment for the C4 failing input: reflective lookups succeed, debug
object present, dlopen fails, so no library is ever opened. -/
def loadEnvNoOpenWithSink : LoadEnv :=
  { getEnvOk := true, sysConfClsOk := true, sdebugFldOk := true,
    sdebugPresent := true, debugClsOk := true, printlnOk := true,
    dlopenOk := false, dlopenErrmsg := "libnss3.so: cannot open shared object file",
    dlsymErr := none, version := 65538 }

/-- State reached by loading under `loadEnvNoOpenWithSink`. -/
def stateNoOpenWithSink : SysconfState :=
  (DEF_JNI_OnLoad initialState loadEnvNoOpenWithSink).state

/-- Claim C4 is violated by the code: in an execution in which no library
open ever succeeded (`nss_handle` is NULL) but the debug sink is present,
`DEF_JNI_OnUnload` still reaches `closeNSS`, which unconditionally calls
`dlclose` on the NULL handle — a release action where the claim requires
none. -/
theorem unload_without_open_still_calls_dlclose :
    stateNoOpenWithSink.nss_handle = none ∧
    stateNoOpenWithSink.debugObj = true ∧
    (DEF_JNI_OnUnload stateNoOpenWithSink
        { getEnvOk := true, dlcloseRet := -1,
          dlcloseErrmsg := "invalid handle" }).1.dlcloseCount = 1 := by
  exact ⟨rfl, rfl, rfl⟩

/-- Environment for the C5 failing input: reflective lookups succeed, no
debug object, dlopen and dlsym succeed, so the library handle is owned. -/
def loadEnvOpenNoSink : LoadEnv :=
  { getEnvOk := true, sysConfClsOk := true, sdebugFldOk := true,
    sdebugPresent := false, debugClsOk := true, printlnOk := true,
    dlopenOk := true, dlopenErrmsg := "", dlsymErr := none, version := 65538 }

/-- State reached by loading under `loadEnvOpenNoSink`. -/
def stateOpenNoSink : SysconfState :=
  (DEF_JNI_OnLoad initialState loadEnvOpenNoSink).state

/-- Claim C5 is violated by the code: in an execution in which the library
open succeeded but the debug sink is absent, `DEF_JNI_OnUnload` returns
without ever calling `closeNSS` (the `closeNSS` call sits inside the
`debugObj != NULL` guard), so the dynamically opened handle is never
released. -/
theorem unload_leaks_handle_when_sink_absent :
    stateOpenNoSink.nss_handle = some () ∧
    stateOpenNoSink.debugObj = false ∧
    (DEF_JNI_OnUnload stateOpenNoSink
        { getEnvOk := true, dlcloseRet := 0,
          dlcloseErrmsg := "" }).1.dlcloseCount = 0 ∧
    (DEF_JNI_OnUnload stateOpenNoSink
        { getEnvOk := true, dlcloseRet := 0,
          dlcloseErrmsg := "" }).1.nss_handle = some () := by
  exact ⟨rfl, rfl, rfl, rfl⟩

end Systemconf
